import Mathlib

/-!
Verification of the trapezoid soil-moisture engine of the
gee_irrigation_monitoring repository (scripts soil_moisture_OPTRAM.js and
soil_moisture_TOTRAM.js), as a shallow embedding.

A pixel value is `Option ℚ` (`none` = masked / invalid, matching the Earth
Engine convention that masked pixels propagate as no-data).  A `Scene` is one
observation over a fixed grid of `n` locations, carrying the vegetation-index
band (`ndvi`), the source band used by the trapezoid model (`src`, which is
STR for OPTRAM and LST for TOTRAM) and a property map.  A Scene Collection is
a `List (Scene n)`.
-/

/-- One observation at a timestamp over a grid of `n` pixel locations. -/
structure Scene (n : ℕ) where
  ndvi : Fin n → Option ℚ
  src : Fin n → Option ℚ
  props : String → Option String

/-- One evaluator output: a single named band over the grid plus metadata. -/
structure SMImage (n : ℕ) where
  band : String
  pix : Fin n → Option ℚ
  props : String → Option String

/-- Combine two optional pixel values with the binary reducer `f`,
skipping invalid values, as Earth Engine reducers do. -/
def ocomb (f : ℚ → ℚ → ℚ) : Option ℚ → Option ℚ → Option ℚ
  | none, b => b
  | some a, none => some a
  | some a, some b => some (f a b)

/-- Reduce a list of valid values with `f`; `none` on the empty list. -/
def extr (f : ℚ → ℚ → ℚ) (l : List ℚ) : Option ℚ :=
  l.foldr (fun x acc => ocomb f (some x) acc) none

/-- The STR transform of soil_moisture_OPTRAM.js line 43:
((1 - SWIR) ** 2) / (2 * SWIR). -/
def STR (swir : ℚ) : ℚ := ((1 - swir) ^ 2) / (2 * swir)

/-- OPTRAM full-cover mask (line 73): NDVI gte 0.6. -/
def optramFullMask (v : ℚ) : Bool := decide ((6 / 10 : ℚ) ≤ v)

/-- OPTRAM bare-soil mask (line 78): NDVI gte 0.1 and lte 0.2. -/
def optramBareMask (v : ℚ) : Bool :=
  decide ((1 / 10 : ℚ) ≤ v) && decide (v ≤ (2 / 10 : ℚ))

/-- TOTRAM full-cover mask (soil_moisture_TOTRAM.js): NDVI gt 0.3, strict. -/
def totramFullMask (v : ℚ) : Bool := decide ((3 / 10 : ℚ) < v)

/-- TOTRAM bare-soil mask: NDVI gte 0 and lt 0.2. -/
def totramBareMask (v : ℚ) : Bool :=
  decide ((0 : ℚ) ≤ v) && decide (v < (2 / 10 : ℚ))

/-- The source-band value of Scene `sc` at location `i` after applying the
vegetation-class mask `mask` to the NDVI band (updateMask semantics:
invalid if either band is invalid or the mask predicate fails). -/
def maskedVal {n : ℕ} (mask : ℚ → Bool) (sc : Scene n) (i : Fin n) : Option ℚ :=
  match sc.ndvi i, sc.src i with
  | some v, some s => if mask v then some s else none
  | _, _ => none

/-- First stage of the corner estimator as written in the code:
the per-location extreme across the Scenes of the collection
(`STR_full_cover.max()` etc.). -/
def stage1 {n : ℕ} (f : ℚ → ℚ → ℚ) (mask : ℚ → Bool)
    (coll : List (Scene n)) (i : Fin n) : Option ℚ :=
  coll.foldr (fun sc acc => ocomb f (maskedVal mask sc i) acc) none

/-- The corner estimator of the code: per-location extreme across Scenes,
then the spatial extreme over the region (`reduceRegion`). -/
def twoStage {n : ℕ} (f : ℚ → ℚ → ℚ) (mask : ℚ → Bool)
    (coll : List (Scene n)) : Option ℚ :=
  (List.finRange n).foldr (fun i acc => ocomb f (stage1 f mask coll i) acc) none

/-- All valid masked values of one Scene, across the grid. -/
def sceneVals {n : ℕ} (mask : ℚ → Bool) (sc : Scene n) : List ℚ :=
  (List.finRange n).filterMap (fun i => maskedVal mask sc i)

/-- Modelled from the spec: the pooled set of all valid masked pixel values
across all Scenes and all locations. -/
def pooledVals {n : ℕ} (mask : ℚ → Bool) (coll : List (Scene n)) : List ℚ :=
  coll.flatMap (sceneVals mask)

/-- Modelled from the spec: the single global extreme over the pooled
values. -/
def pooledExtreme {n : ℕ} (f : ℚ → ℚ → ℚ) (mask : ℚ → Bool)
    (coll : List (Scene n)) : Option ℚ :=
  extr f (pooledVals mask coll)

/-- OPTRAM wet-vegetation corner (line 83): collection max of full-cover STR,
then spatial max. -/
def vw_opt {n : ℕ} (coll : List (Scene n)) : Option ℚ :=
  twoStage max optramFullMask coll

/-- OPTRAM dry-vegetation corner (line 87): min of full-cover STR. -/
def vd_opt {n : ℕ} (coll : List (Scene n)) : Option ℚ :=
  twoStage min optramFullMask coll

/-- OPTRAM wet-bare corner (line 91): max of bare-soil STR. -/
def iw_opt {n : ℕ} (coll : List (Scene n)) : Option ℚ :=
  twoStage max optramBareMask coll

/-- OPTRAM dry-bare corner (line 95): min of bare-soil STR. -/
def id_opt {n : ℕ} (coll : List (Scene n)) : Option ℚ :=
  twoStage min optramBareMask coll

/-- Subtraction of optional scalars; invalid if either side is invalid. -/
def osub : Option ℚ → Option ℚ → Option ℚ
  | some a, some b => some (a - b)
  | _, _ => none

/-- OPTRAM dry delta (line 99): sd_opt = vd_opt.subtract(id_opt). -/
def sd_opt {n : ℕ} (coll : List (Scene n)) : Option ℚ :=
  osub (vd_opt coll) (id_opt coll)

/-- OPTRAM wet delta (line 100): sw_opt = vw_opt.subtract(iw_opt). -/
def sw_opt {n : ℕ} (coll : List (Scene n)) : Option ℚ :=
  osub (vw_opt coll) (iw_opt coll)

/-- TOTRAM wet-vegetation corner: min of full-cover LST. -/
def vw_tot {n : ℕ} (coll : List (Scene n)) : Option ℚ :=
  twoStage min totramFullMask coll

/-- TOTRAM dry-vegetation corner: max of full-cover LST. -/
def vd_tot {n : ℕ} (coll : List (Scene n)) : Option ℚ :=
  twoStage max totramFullMask coll

/-- TOTRAM wet-bare corner: min of bare-soil LST. -/
def iw_tot {n : ℕ} (coll : List (Scene n)) : Option ℚ :=
  twoStage min totramBareMask coll

/-- TOTRAM dry-bare corner: max of bare-soil LST. -/
def id_tot {n : ℕ} (coll : List (Scene n)) : Option ℚ :=
  twoStage max totramBareMask coll

/-- TOTRAM dry delta (part_002 line 85): sd = id.subtract(vd). -/
def sd_tot {n : ℕ} (coll : List (Scene n)) : Option ℚ :=
  osub (id_tot coll) (vd_tot coll)

/-- TOTRAM wet delta (part_002 line 86): sw = iw.subtract(vw). -/
def sw_tot {n : ℕ} (coll : List (Scene n)) : Option ℚ :=
  osub (iw_tot coll) (vw_tot coll)

/-- The fixed trapezoid parameters passed to every per-Scene evaluation:
the bare-soil baseline corners and the two deltas. -/
structure Params where
  pid : Option ℚ
  piw : Option ℚ
  psd : Option ℚ
  psw : Option ℚ
deriving DecidableEq

/-- The OPTRAM calibration result, computed once from the collection. -/
def optramParams {n : ℕ} (coll : List (Scene n)) : Params :=
  ⟨id_opt coll, iw_opt coll, sd_opt coll, sw_opt coll⟩

/-- The TOTRAM calibration result, computed once from the collection. -/
def totramParams {n : ℕ} (coll : List (Scene n)) : Params :=
  ⟨id_tot coll, iw_tot coll, sd_tot coll, sw_tot coll⟩

/-- The OPTRAM per-pixel expression (lines 104 and 127):
((id + (sd * NDVI) - STR) / ((id - iw) + ((sd - sw) * NDVI))) * 100.
Division by an exactly zero denominator yields a masked pixel, the Earth
Engine semantics of division by zero. -/
def optramExpr (idq iwq sdq swq ndvi str : ℚ) : Option ℚ :=
  let den := (idq - iwq) + (sdq - swq) * ndvi
  if den = 0 then none else some (((idq + sdq * ndvi - str) / den) * 100)

/-- The TOTRAM per-pixel expression (part_002 line 92):
(id + sd * NDVI - LST) / (id - iw + (sd - sw) * NDVI), unscaled. -/
def totramExpr (idq iwq sdq swq ndvi lst : ℚ) : Option ℚ :=
  let den := idq - iwq + (sdq - swq) * ndvi
  if den = 0 then none else some ((idq + sdq * ndvi - lst) / den)

/-- Apply a per-pixel expression given optional parameters and band values:
if any parameter or input band value is invalid, the output pixel is
invalid. -/
def applyExpr (g : ℚ → ℚ → ℚ → ℚ → ℚ → ℚ → Option ℚ) (p : Params)
    (ndvi src : Option ℚ) : Option ℚ :=
  p.pid.bind fun a => p.piw.bind fun b => p.psd.bind fun c => p.psw.bind fun d =>
    ndvi.bind fun nv => src.bind fun sv => g a b c d nv sv

/-- Update one key of a property map (Earth Engine `set`). -/
def setProp (k v : String) (p : String → Option String) : String → Option String :=
  fun k2 => if k2 = k then some v else p k2

/-- The empty property map of a freshly built expression image. -/
def emptyProps : String → Option String := fun _ => none

/-- One element of optram_series (lines 125-137): evaluate the expression on
the Scene, rename the band to soil_moisture, copy every property of the
source Scene (copyProperties over image.propertyNames()), then set model and
units. -/
def optramSeriesImg {n : ℕ} (p : Params) (sc : Scene n) : SMImage n :=
  { band := "soil_moisture"
    pix := fun i => applyExpr optramExpr p (sc.ndvi i) (sc.src i)
    props := setProp "units" "%" (setProp "model" "OPTRAM" sc.props) }

/-- OPTRAM_median (lines 103-119): the same expression evaluated on the
median reference composite, with the four provenance fields set. -/
def OPTRAM_median {n : ℕ} (p : Params) (med : Scene n) : SMImage n :=
  { band := "soil_moisture"
    pix := fun i => applyExpr optramExpr p (med.ndvi i) (med.src i)
    props :=
      setProp "notes"
        "Relative surface soil moisture estimated by OPTRAM from Sentinel-2 STR & NDVI"
        (setProp "units" "%"
          (setProp "model_ref" "Sadeghi et al. (adapted)."
            (setProp "model" "OPTRAM" emptyProps))) }

/-- One element of sm_series (part_002 lines 89-96): the TOTRAM expression,
band renamed soil_moisture, properties copied from the source Scene, then
model and units set. -/
def totramSeriesImg {n : ℕ} (p : Params) (sc : Scene n) : SMImage n :=
  { band := "soil_moisture"
    pix := fun i => applyExpr totramExpr p (sc.ndvi i) (sc.src i)
    props := setProp "units" "relative" (setProp "model" "TOTRAM" sc.props) }

/-- The property map of sm_mean (part_002 lines 97-101): model, units and
notes set on a fresh mean image. -/
def sm_mean_props : String → Option String :=
  setProp "notes" "Thermal-optical relative soil moisture (TOTRAM)"
    (setProp "units" "relative" (setProp "model" "TOTRAM" emptyProps))

/-- The whole OPTRAM application phase as the script performs it: the series
is built by mapping the evaluator over every Scene of the collection,
unconditionally, with the parameters computed once from that same
collection. -/
def optramRun {n : ℕ} (coll : List (Scene n)) : List (SMImage n) :=
  coll.map (optramSeriesImg (optramParams coll))

/-- Modelled from the spec: the rational model
value = (dryBare + sd * index - sourceBand) /
((dryBare - wetBare) + (sd - sw) * index). -/
def ratModelSpec (dryBare wetBare sdq swq idx src : ℚ) : ℚ :=
  (dryBare + sdq * idx - src) / ((dryBare - wetBare) + (sdq - swq) * idx)

/-- The per-location columns of pooled values, locations outermost; an
intermediate view used to relate the two-stage reduction to the pooled
extreme. -/
def colPool {n : ℕ} (mask : ℚ → Bool) (coll : List (Scene n)) : List ℚ :=
  (List.finRange n).flatMap fun i => coll.filterMap fun sc => maskedVal mask sc i

/-- A concrete three-pixel OPTRAM test Scene: pixels 0 and 1 are full cover
(NDVI 0.7 and 0.8, STR 2 and 3), pixel 2 is bare soil (NDVI 0.15, STR 1). -/
def sceneA : Scene 3 :=
  { ndvi := ![some (7/10), some (8/10), some (3/20)]
    src := ![some 2, some 3, some 1]
    props := emptyProps }

/-- A second OPTRAM test Scene with some invalid pixels. -/
def sceneB : Scene 3 :=
  { ndvi := ![some (9/10), none, some (3/20)]
    src := ![some 4, some 5, none]
    props := emptyProps }

/-- A one-Scene OPTRAM test collection. -/
def coll0 : List (Scene 3) := [sceneA]

/-- A concrete three-pixel TOTRAM test Scene: pixels 0 and 1 are full cover
(NDVI 0.7 and 0.8, LST 300 and 310), pixel 2 is bare (NDVI 0.1, LST 320). -/
def sceneT : Scene 3 :=
  { ndvi := ![some (7/10), some (8/10), some (1/10)]
    src := ![some 300, some 310, some 320]
    props := emptyProps }

/-- A one-Scene TOTRAM test collection. -/
def collT : List (Scene 3) := [sceneT]

/-- A Scene whose single pixel (NDVI 0.5) is selected by neither the
full-cover mask nor the bare-soil mask. -/
def sceneV : Scene 1 :=
  { ndvi := ![some (1/2)], src := ![some 1], props := emptyProps }

/-- A collection on which every OPTRAM corner estimate is empty. -/
def collV : List (Scene 1) := [sceneV]

/-- A Scene carrying an acquisition-timestamp property. -/
def sceneTime : Scene 1 :=
  { ndvi := ![some (7/10)], src := ![some 2]
    props := setProp "system:time_start" "1625097600000" emptyProps }

/-! ## Generic lemmas about the optional-value reducer -/

lemma ocomb_none_left (f : ℚ → ℚ → ℚ) (b : Option ℚ) : ocomb f none b = b := rfl

lemma ocomb_assoc (f : ℚ → ℚ → ℚ) (hf : ∀ x y z, f (f x y) z = f x (f y z))
    (a b c : Option ℚ) : ocomb f (ocomb f a b) c = ocomb f a (ocomb f b c) := by
  cases a <;> cases b <;> cases c <;> simp [ocomb, hf]

lemma ocomb_some_comm (f : ℚ → ℚ → ℚ) (hc : ∀ x y, f x y = f y x) (x y : ℚ) :
    ocomb f (some x) (some y) = ocomb f (some y) (some x) := by
  simp [ocomb, hc x y]

lemma extr_cons (f : ℚ → ℚ → ℚ) (x : ℚ) (l : List ℚ) :
    extr f (x :: l) = ocomb f (some x) (extr f l) := rfl

lemma extr_append (f : ℚ → ℚ → ℚ) (hf : ∀ x y z, f (f x y) z = f x (f y z))
    (l1 l2 : List ℚ) : extr f (l1 ++ l2) = ocomb f (extr f l1) (extr f l2) := by
  induction l1 with
  | nil => rfl
  | cons x l ih =>
      rw [List.cons_append, extr_cons, ih, extr_cons, ocomb_assoc f hf]

lemma extr_perm (f : ℚ → ℚ → ℚ) (hc : ∀ x y, f x y = f y x)
    (hf : ∀ x y z, f (f x y) z = f x (f y z)) {l1 l2 : List ℚ}
    (h : l1.Perm l2) : extr f l1 = extr f l2 := by
  induction h with
  | nil => rfl
  | cons x _ ih => rw [extr_cons, extr_cons, ih]
  | swap x y l =>
      rw [extr_cons, extr_cons, extr_cons, extr_cons,
        ← ocomb_assoc f hf, ← ocomb_assoc f hf, ocomb_some_comm f hc]
  | trans _ _ ih1 ih2 => exact ih1.trans ih2

lemma stage1_eq_extr {n : ℕ} (f : ℚ → ℚ → ℚ) (mask : ℚ → Bool)
    (coll : List (Scene n)) (i : Fin n) :
    stage1 f mask coll i = extr f (coll.filterMap fun sc => maskedVal mask sc i) := by
  induction coll with
  | nil => rfl
  | cons sc coll ih =>
      show ocomb f (maskedVal mask sc i) (stage1 f mask coll i) = _
      cases h : maskedVal mask sc i with
      | none => simp only [List.filterMap_cons, h, ocomb_none_left, ih]
      | some v => simp only [List.filterMap_cons, h, extr_cons, ih]

lemma twoStage_eq_extr_colPool {n : ℕ} (f : ℚ → ℚ → ℚ)
    (hf : ∀ x y z, f (f x y) z = f x (f y z)) (mask : ℚ → Bool)
    (coll : List (Scene n)) : twoStage f mask coll = extr f (colPool mask coll) := by
  show (List.finRange n).foldr (fun i acc => ocomb f (stage1 f mask coll i) acc) none
      = extr f ((List.finRange n).flatMap fun i => coll.filterMap fun sc => maskedVal mask sc i)
  induction List.finRange n with
  | nil => rfl
  | cons i L ih =>
      rw [List.foldr_cons, List.flatMap_cons, extr_append f hf, ih,
        stage1_eq_extr f mask coll i]

lemma flatMap_nil_fun {α γ : Type} (l : List α) :
    (l.flatMap fun _ => ([] : List γ)) = [] := by
  induction l with
  | nil => rfl
  | cons a l ih => rw [List.flatMap_cons, List.nil_append, ih]

lemma flatMap_comm_perm {α β γ : Type} (l1 : List α) (l2 : List β)
    (F : α → β → List γ) :
    (l1.flatMap fun a => l2.flatMap fun b => F a b).Perm
      (l2.flatMap fun b => l1.flatMap fun a => F a b) := by
  induction l1 with
  | nil =>
      simp only [List.flatMap_nil, flatMap_nil_fun]
      exact List.Perm.nil
  | cons a l1 ih =>
      rw [List.flatMap_cons]
      have h1 : (l2.flatMap (F a) ++ l1.flatMap fun a2 => l2.flatMap fun b => F a2 b).Perm
          (l2.flatMap (F a) ++ l2.flatMap fun b => l1.flatMap fun a2 => F a2 b) :=
        ih.append_left (l2.flatMap (F a))
      have h2 : (l2.flatMap (F a) ++ l2.flatMap fun b => l1.flatMap fun a2 => F a2 b).Perm
          (l2.flatMap fun b => F a b ++ l1.flatMap fun a2 => F a2 b) :=
        List.flatMap_append_perm l2 (F a) fun b => l1.flatMap fun a2 => F a2 b
      have h3 : (l2.flatMap fun b => F a b ++ l1.flatMap fun a2 => F a2 b)
          = l2.flatMap fun b => (a :: l1).flatMap fun a2 => F a2 b := by
        simp only [List.flatMap_cons]
      refine (h1.trans h2).trans ?_
      rw [h3]

lemma colPool_perm_pooledVals {n : ℕ} (mask : ℚ → Bool) (coll : List (Scene n)) :
    (colPool mask coll).Perm (pooledVals mask coll) := by
  unfold colPool pooledVals sceneVals
  simp only [List.filterMap_eq_flatMap_toList]
  exact flatMap_comm_perm (List.finRange n) coll
    (fun i sc => (maskedVal mask sc i).toList)

lemma twoStage_eq_pooled {n : ℕ} (f : ℚ → ℚ → ℚ) (hc : ∀ x y, f x y = f y x)
    (hf : ∀ x y z, f (f x y) z = f x (f y z)) (mask : ℚ → Bool)
    (coll : List (Scene n)) : twoStage f mask coll = pooledExtreme f mask coll := by
  rw [twoStage_eq_extr_colPool f hf mask coll]
  exact extr_perm f hc hf (colPool_perm_pooledVals mask coll)

lemma twoStage_perm {n : ℕ} (f : ℚ → ℚ → ℚ) (hc : ∀ x y, f x y = f y x)
    (hf : ∀ x y z, f (f x y) z = f x (f y z)) (mask : ℚ → Bool)
    {coll coll2 : List (Scene n)} (h : coll.Perm coll2) :
    twoStage f mask coll = twoStage f mask coll2 := by
  rw [twoStage_eq_pooled f hc hf mask coll, twoStage_eq_pooled f hc hf mask coll2]
  exact extr_perm f hc hf (h.flatMap_right (sceneVals mask))

/-! ## Claim theorems -/

/-- Claim C6: for every swir in the open interval (0,1), the transmittance
ratio STR swir = ((1 - swir)^2) / (2 * swir) is strictly decreasing in swir,
and at swir = 1/2 it equals exactly 1/4. -/
theorem STR_strictly_decreasing_and_value_at_half :
    (∀ a b : ℚ, 0 < a → a < b → b < 1 → STR b < STR a) ∧ STR (1 / 2) = 1 / 4 := by
  constructor
  · intro a b ha hab hb1
    have hb : 0 < b := ha.trans hab
    have hab1 : a * b < 1 := by nlinarith
    unfold STR
    rw [div_lt_div_iff₀ (by positivity) (by positivity)]
    nlinarith [mul_pos (sub_pos.mpr hab) (sub_pos.mpr hab1)]
  · norm_num [STR]

/-- Witness for C6 at the concrete pair swir = 1/4 and swir = 1/2. -/
theorem STR_strictly_decreasing_witness : STR (1 / 2) < STR (1 / 4) :=
  STR_strictly_decreasing_and_value_at_half.1 (1 / 4) (1 / 2)
    (by norm_num) (by norm_num) (by norm_num)

/-- Claim C1, counterexample: on the concrete one-Scene OPTRAM collection
coll0 the code computes sd_opt = dryVeg - dryBare = some 1 and
sw_opt = wetVeg - wetBare = some 2, while the claimed form
dryBare - dryVeg (resp. wetBare - wetVeg) evaluates to some (-1)
(resp. some (-2)); the ratio-band family therefore does not use the
bare-minus-vegetation form. -/
theorem optram_delta_direction_cex :
    sd_opt coll0 ≠ osub (id_opt coll0) (vd_opt coll0) ∧
    sw_opt coll0 ≠ osub (iw_opt coll0) (vw_opt coll0) := by
  constructor <;>
    norm_num [sd_opt, sw_opt, vd_opt, vw_opt, id_opt, iw_opt, osub,
      twoStage, stage1, maskedVal, ocomb, optramFullMask, optramBareMask, coll0, sceneA,
      List.finRange_succ_eq_map, List.finRange_zero, Matrix.cons_val_zero,
      Matrix.cons_val_one, Matrix.head_cons, Matrix.cons_val_succ]

/-- Claim C1, amended: in the temperature (TOTRAM) family the deltas are
bare-soil corner minus vegetation corner, sd = dryBare - dryVeg and
sw = wetBare - wetVeg, but in the ratio-band (OPTRAM) family the code uses
the opposite structural form, vegetation corner minus bare-soil corner:
sd = dryVeg - dryBare and sw = wetVeg - wetBare. -/
theorem trapezoid_delta_forms :
    (∀ (n : ℕ) (coll : List (Scene n)) (a b : ℚ),
        vd_opt coll = some a → id_opt coll = some b → sd_opt coll = some (a - b)) ∧
    (∀ (n : ℕ) (coll : List (Scene n)) (a b : ℚ),
        vw_opt coll = some a → iw_opt coll = some b → sw_opt coll = some (a - b)) ∧
    (∀ (n : ℕ) (coll : List (Scene n)) (a b : ℚ),
        id_tot coll = some a → vd_tot coll = some b → sd_tot coll = some (a - b)) ∧
    (∀ (n : ℕ) (coll : List (Scene n)) (a b : ℚ),
        iw_tot coll = some a → vw_tot coll = some b → sw_tot coll = some (a - b)) := by
  refine ⟨?_, ?_, ?_, ?_⟩ <;>
    · intro n coll a b h1 h2
      simp only [sd_opt, sw_opt, sd_tot, sw_tot, h1, h2, osub]

/-- Witness for the amended C1 on the concrete collections coll0 (OPTRAM,
dryVeg 2 minus dryBare 1) and collT (TOTRAM, dryBare 320 minus dryVeg 310). -/
theorem trapezoid_delta_forms_witness :
    sd_opt coll0 = some (2 - 1) ∧ sd_tot collT = some (320 - 310) := by
  constructor
  · exact trapezoid_delta_forms.1 3 coll0 2 1
      (by norm_num [vd_opt, twoStage, stage1, maskedVal, ocomb, optramFullMask, coll0,
        sceneA, List.finRange_succ_eq_map, List.finRange_zero, Matrix.cons_val_zero,
        Matrix.cons_val_one, Matrix.head_cons, Matrix.cons_val_succ])
      (by norm_num [id_opt, twoStage, stage1, maskedVal, ocomb, optramBareMask, coll0,
        sceneA, List.finRange_succ_eq_map, List.finRange_zero, Matrix.cons_val_zero,
        Matrix.cons_val_one, Matrix.head_cons, Matrix.cons_val_succ])
  · exact trapezoid_delta_forms.2.2.1 3 collT 320 310
      (by norm_num [id_tot, twoStage, stage1, maskedVal, ocomb, totramBareMask, collT,
        sceneT, List.finRange_succ_eq_map, List.finRange_zero, Matrix.cons_val_zero,
        Matrix.cons_val_one, Matrix.head_cons, Matrix.cons_val_succ])
      (by norm_num [vd_tot, twoStage, stage1, maskedVal, ocomb, totramFullMask, collT,
        sceneT, List.finRange_succ_eq_map, List.finRange_zero, Matrix.cons_val_zero,
        Matrix.cons_val_one, Matrix.head_cons, Matrix.cons_val_succ])

/-- Claim C5, counterexample: with trapezoid parameters id = 2, iw = 2,
sd = 1, sw = 999999/1000000 and index 1, the denominator is the near-zero
value 1/1000000, yet the evaluator returns the valid (not masked) extreme
value 200000000 instead of marking the pixel invalid. -/
theorem near_zero_denominator_cex :
    ((2 : ℚ) - 2) + (1 - 999999 / 1000000) * 1 = 1 / 1000000 ∧
    optramExpr 2 2 1 (999999 / 1000000) 1 1 = some 200000000 ∧
    optramExpr 2 2 1 (999999 / 1000000) 1 1 ≠ none := by
  refine ⟨by norm_num, by norm_num [optramExpr], ?_⟩
  norm_num [optramExpr]
  exact Option.some_ne_none _

/-- Claim C5, amended: the evaluator masks an output pixel invalid exactly
when the denominator is exactly zero; for any nonzero denominator, however
small, it returns a valid finite value given by the rational model. -/
theorem zero_denominator_masked :
    ∀ a b c d nv sv : ℚ,
      ((a - b) + (c - d) * nv = 0 →
        optramExpr a b c d nv sv = none ∧ totramExpr a b c d nv sv = none) ∧
      ((a - b) + (c - d) * nv ≠ 0 →
        optramExpr a b c d nv sv = some (ratModelSpec a b c d nv sv * 100) ∧
        totramExpr a b c d nv sv = some (ratModelSpec a b c d nv sv)) := by
  intro a b c d nv sv
  constructor
  · intro h
    constructor <;> simp only [optramExpr, totramExpr, h, if_pos]
  · intro h
    constructor <;> simp only [optramExpr, totramExpr, ratModelSpec, h, if_neg,
      not_false_iff, if_false]

/-- Witness for the amended C5: a zero denominator is masked and the
near-zero denominator of the counterexample is not. -/
theorem zero_denominator_masked_witness :
    optramExpr 1 1 1 1 1 1 = none ∧
    totramExpr 2 2 1 (999999 / 1000000) 1 1
      = some (ratModelSpec 2 2 1 (999999 / 1000000) 1 1) :=
  ⟨((zero_denominator_masked 1 1 1 1 1 1).1 (by norm_num)).1,
   ((zero_denominator_masked 2 2 1 (999999 / 1000000) 1 1).2 (by norm_num)).2⟩

/-- Claim C8, counterexample: at an index value exactly equal to the high
threshold 3/10, the TOTRAM full-cover mask is false (the code uses a strict
gt comparison), while the claimed inclusive policy (index gte threshold)
would make it hold; the OPTRAM mask, by contrast, is inclusive at its
threshold 6/10. -/
theorem full_cover_threshold_cex :
    totramFullMask (3 / 10) = false ∧ optramFullMask (6 / 10) = true := by
  constructor <;> norm_num [totramFullMask, optramFullMask]

/-- Claim C8, amended: the OPTRAM full-cover mask holds iff NDVI gte 6/10
and its bare-soil mask iff NDVI lies in the closed band [1/10, 2/10]; the
TOTRAM full-cover mask holds iff NDVI is strictly greater than 3/10 and its
bare-soil mask iff NDVI lies in the half-open band [0, 2/10); within each
family the two masks are disjoint. -/
theorem vegetation_masks_spec :
    ∀ v : ℚ,
      (optramFullMask v = true ↔ 6 / 10 ≤ v) ∧
      (optramBareMask v = true ↔ 1 / 10 ≤ v ∧ v ≤ 2 / 10) ∧
      (totramFullMask v = true ↔ 3 / 10 < v) ∧
      (totramBareMask v = true ↔ 0 ≤ v ∧ v < 2 / 10) ∧
      ¬(optramFullMask v = true ∧ optramBareMask v = true) ∧
      ¬(totramFullMask v = true ∧ totramBareMask v = true) := by
  intro v
  refine ⟨by simp [optramFullMask], by simp [optramBareMask],
    by simp [totramFullMask], by simp [totramBareMask], ?_, ?_⟩
  · simp only [optramFullMask, optramBareMask, Bool.and_eq_true, decide_eq_true_eq]
    rintro ⟨h1, h2, h3⟩
    linarith
  · simp only [totramFullMask, totramBareMask, Bool.and_eq_true, decide_eq_true_eq]
    rintro ⟨h1, h2, h3⟩
    linarith

/-- Witness for the amended C8 at concrete NDVI values. -/
theorem vegetation_masks_spec_witness :
    optramFullMask (7 / 10) = true ∧ totramBareMask (1 / 10) = true :=
  ⟨(vegetation_masks_spec (7 / 10)).1.mpr (by norm_num),
   (vegetation_masks_spec (1 / 10)).2.2.2.1.mpr (by norm_num)⟩

/-- Claim C2: for every valid pixel of every Scene (and of the median
reference composite), whenever the calibration yields defined parameters and
the denominator is nonzero, the evaluator computes exactly the rational
model value = (dryBare + sd * index - sourceBand) /
((dryBare - wetBare) + (sd - sw) * index) with the bare-soil corner pair as
baseline - scaled to a percentage for the ratio-band family and left
dimensionless for the temperature family - and the chosen scaling is
declared in the units metadata field of the output. -/
theorem evaluator_rational_model :
    (∀ (n : ℕ) (coll : List (Scene n)) (sc : Scene n) (i : Fin n) (a b c d nv sv : ℚ),
      optramParams coll = ⟨some a, some b, some c, some d⟩ →
      sc.ndvi i = some nv → sc.src i = some sv →
      (a - b) + (c - d) * nv ≠ 0 →
      (optramSeriesImg (optramParams coll) sc).pix i
          = some (ratModelSpec a b c d nv sv * 100) ∧
      (optramSeriesImg (optramParams coll) sc).props "units" = some "%") ∧
    (∀ (n : ℕ) (p : Params) (med : Scene n) (i : Fin n) (a b c d nv sv : ℚ),
      p = ⟨some a, some b, some c, some d⟩ →
      med.ndvi i = some nv → med.src i = some sv →
      (a - b) + (c - d) * nv ≠ 0 →
      (OPTRAM_median p med).pix i = some (ratModelSpec a b c d nv sv * 100) ∧
      (OPTRAM_median p med).props "units" = some "%") ∧
    (∀ (n : ℕ) (coll : List (Scene n)) (sc : Scene n) (i : Fin n) (a b c d nv sv : ℚ),
      totramParams coll = ⟨some a, some b, some c, some d⟩ →
      sc.ndvi i = some nv → sc.src i = some sv →
      (a - b) + (c - d) * nv ≠ 0 →
      (totramSeriesImg (totramParams coll) sc).pix i
          = some (ratModelSpec a b c d nv sv) ∧
      (totramSeriesImg (totramParams coll) sc).props "units" = some "relative") := by
  refine ⟨?_, ?_, ?_⟩
  · intro n coll sc i a b c d nv sv hp hnd hsv hden
    constructor
    · show applyExpr optramExpr (optramParams coll) (sc.ndvi i) (sc.src i) = _
      rw [hp, hnd, hsv]
      show optramExpr a b c d nv sv = _
      simp only [optramExpr, ratModelSpec, if_neg hden]
    · simp [optramSeriesImg, setProp]
  · intro n p med i a b c d nv sv hp hnd hsv hden
    constructor
    · show applyExpr optramExpr p (med.ndvi i) (med.src i) = _
      rw [hp, hnd, hsv]
      show optramExpr a b c d nv sv = _
      simp only [optramExpr, ratModelSpec, if_neg hden]
    · simp [OPTRAM_median, setProp]
  · intro n coll sc i a b c d nv sv hp hnd hsv hden
    constructor
    · show applyExpr totramExpr (totramParams coll) (sc.ndvi i) (sc.src i) = _
      rw [hp, hnd, hsv]
      show totramExpr a b c d nv sv = _
      simp only [totramExpr, ratModelSpec, if_neg hden]
    · simp [totramSeriesImg, setProp]

/-- Witness for C2: the concrete OPTRAM collection coll0 calibrates to
id = 1, iw = 1, sd = 1, sw = 2, and the pixel with NDVI 7/10 and STR 2
evaluates to the rational-model value; likewise for collT in the TOTRAM
family. -/
theorem evaluator_rational_model_witness :
    (optramSeriesImg (optramParams coll0) sceneA).pix 0
        = some (ratModelSpec 1 1 1 2 (7 / 10) 2 * 100) ∧
    (totramSeriesImg (totramParams collT) sceneT).pix 0
        = some (ratModelSpec 320 320 10 20 (7 / 10) 300) := by
  constructor
  · exact (evaluator_rational_model.1 3 coll0 sceneA 0 1 1 1 2 (7 / 10) 2
      (by norm_num [optramParams, id_opt, iw_opt, sd_opt, sw_opt, vd_opt, vw_opt, osub,
        twoStage, stage1, maskedVal, ocomb, optramFullMask, optramBareMask, coll0, sceneA,
        List.finRange_succ_eq_map, List.finRange_zero, Matrix.cons_val_zero,
        Matrix.cons_val_one, Matrix.head_cons, Matrix.cons_val_succ])
      (by simp [sceneA]) (by simp [sceneA]) (by norm_num)).1
  · exact (evaluator_rational_model.2.2 3 collT sceneT 0 320 320 10 20 (7 / 10) 300
      (by norm_num [totramParams, id_tot, iw_tot, sd_tot, sw_tot, vd_tot, vw_tot, osub,
        twoStage, stage1, maskedVal, ocomb, totramFullMask, totramBareMask, collT, sceneT,
        List.finRange_succ_eq_map, List.finRange_zero, Matrix.cons_val_zero,
        Matrix.cons_val_one, Matrix.head_cons, Matrix.cons_val_succ])
      (by simp [sceneT]) (by simp [sceneT]) (by norm_num)).1

/-- Claim C3: for every non-empty Scene Collection, mask predicate and
band, the two-stage reduction of the code (per-pixel extreme across Scenes,
then a spatial extreme over the region) equals the single global extreme
over the pooled valid masked pixel values across all Scenes and all
locations, both for max and for min. -/
theorem corner_estimator_pooled_equiv :
    ∀ (n : ℕ) (mask : ℚ → Bool) (coll : List (Scene n)), coll ≠ [] →
      twoStage max mask coll = pooledExtreme max mask coll ∧
      twoStage min mask coll = pooledExtreme min mask coll :=
  fun _ mask coll _ =>
    ⟨twoStage_eq_pooled max max_comm max_assoc mask coll,
     twoStage_eq_pooled min min_comm min_assoc mask coll⟩

/-- Witness for C3 on the concrete collection coll0 with the full-cover
mask. -/
theorem corner_estimator_pooled_equiv_witness :
    twoStage max optramFullMask coll0 = pooledExtreme max optramFullMask coll0 :=
  (corner_estimator_pooled_equiv 3 optramFullMask coll0 (by simp [coll0])).1

/-- Claim C4, counterexample: on the collection collV the bare-soil and
full-cover masks select no pixel, so the corner estimates are all null, yet
the script neither raises an InsufficientDataError nor aborts: the per-Scene
series is still built, producing one output image for its one input
Scene. -/
theorem calibration_failure_no_abort_cex :
    id_opt collV = none ∧ iw_opt collV = none ∧
    (optramRun collV).length = 1 ∧ optramRun collV ≠ [] := by
  refine ⟨?_, ?_, by simp [optramRun, collV], by simp [optramRun, collV]⟩ <;>
    norm_num [id_opt, iw_opt, twoStage, stage1, maskedVal, ocomb, optramBareMask,
      collV, sceneV, List.finRange_succ_eq_map, List.finRange_zero,
      Matrix.cons_val_zero, Matrix.cons_val_one, Matrix.head_cons, Matrix.cons_val_succ]

/-- Claim C4, amended: when a corner estimate is undefined (empty collection
or a mask leaving no valid pixels), the run is not aborted and no error is
raised; the application phase still maps the evaluator over every Scene of
the collection, and every pixel of every output image is invalid. -/
theorem calibration_null_propagates :
    ∀ (n : ℕ) (coll : List (Scene n)), id_opt coll = none →
      (optramRun coll).length = coll.length ∧
      ∀ im, im ∈ optramRun coll → ∀ i, im.pix i = none := by
  intro n coll h
  constructor
  · simp [optramRun]
  · intro im him i
    rcases List.mem_map.1 him with ⟨sc, _, rfl⟩
    show applyExpr optramExpr (optramParams coll) (sc.ndvi i) (sc.src i) = none
    unfold applyExpr
    rw [show (optramParams coll).pid = id_opt coll from rfl, h]
    rfl

/-- Witness for the amended C4 on the concrete collection collV. -/
theorem calibration_null_propagates_witness :
    (optramRun collV).length = collV.length :=
  (calibration_null_propagates 1 collV
    (by norm_num [id_opt, twoStage, stage1, maskedVal, ocomb, optramBareMask,
      collV, sceneV, List.finRange_succ_eq_map, List.finRange_zero,
      Matrix.cons_val_zero, Matrix.cons_val_one, Matrix.head_cons,
      Matrix.cons_val_succ])).1

/-- Claim C7: for every Scene Collection and every permutation of its
Scenes, the four corner extremes of each model family, the derived
trapezoid parameters, and the per-Scene evaluated outputs of the series
(hence the per-timestamp values of the regional time series) are identical
to those computed from the original order. -/
theorem corner_and_series_order_independence :
    ∀ (n : ℕ) (coll coll2 : List (Scene n)), coll.Perm coll2 →
      (vw_opt coll = vw_opt coll2 ∧ vd_opt coll = vd_opt coll2 ∧
        iw_opt coll = iw_opt coll2 ∧ id_opt coll = id_opt coll2) ∧
      (vw_tot coll = vw_tot coll2 ∧ vd_tot coll = vd_tot coll2 ∧
        iw_tot coll = iw_tot coll2 ∧ id_tot coll = id_tot coll2) ∧
      optramParams coll = optramParams coll2 ∧
      totramParams coll = totramParams coll2 ∧
      ∀ sc : Scene n,
        optramSeriesImg (optramParams coll) sc
          = optramSeriesImg (optramParams coll2) sc ∧
        totramSeriesImg (totramParams coll) sc
          = totramSeriesImg (totramParams coll2) sc := by
  intro n coll coll2 h
  have h1 : vw_opt coll = vw_opt coll2 :=
    twoStage_perm max max_comm max_assoc optramFullMask h
  have h2 : vd_opt coll = vd_opt coll2 :=
    twoStage_perm min min_comm min_assoc optramFullMask h
  have h3 : iw_opt coll = iw_opt coll2 :=
    twoStage_perm max max_comm max_assoc optramBareMask h
  have h4 : id_opt coll = id_opt coll2 :=
    twoStage_perm min min_comm min_assoc optramBareMask h
  have h5 : vw_tot coll = vw_tot coll2 :=
    twoStage_perm min min_comm min_assoc totramFullMask h
  have h6 : vd_tot coll = vd_tot coll2 :=
    twoStage_perm max max_comm max_assoc totramFullMask h
  have h7 : iw_tot coll = iw_tot coll2 :=
    twoStage_perm min min_comm min_assoc totramBareMask h
  have h8 : id_tot coll = id_tot coll2 :=
    twoStage_perm max max_comm max_assoc totramBareMask h
  have hp : optramParams coll = optramParams coll2 := by
    unfold optramParams sd_opt sw_opt
    rw [h1, h2, h3, h4]
  have hq : totramParams coll = totramParams coll2 := by
    unfold totramParams sd_tot sw_tot
    rw [h5, h6, h7, h8]
  exact ⟨⟨h1, h2, h3, h4⟩, ⟨h5, h6, h7, h8⟩, hp, hq,
    fun sc => ⟨by rw [hp], by rw [hq]⟩⟩

/-- Witness for C7 on the concrete two-Scene collection and its swap. -/
theorem order_independence_witness :
    vw_opt [sceneA, sceneB] = vw_opt [sceneB, sceneA] ∧
    optramParams [sceneA, sceneB] = optramParams [sceneB, sceneA] :=
  ⟨((corner_and_series_order_independence 3 [sceneA, sceneB] [sceneB, sceneA]
      (List.Perm.swap sceneB sceneA [])).1).1,
   (corner_and_series_order_independence 3 [sceneA, sceneB] [sceneB, sceneA]
      (List.Perm.swap sceneB sceneA [])).2.2.1⟩

/-- Claim C9, counterexample: the per-Scene outputs of both time series set
only the model and units fields, so on a source Scene without a reference
citation or note (as produced upstream in both scripts) the output carries
neither model_ref nor notes, contradicting the claim that every output
carries all four provenance fields. -/
theorem provenance_metadata_cex :
    (optramSeriesImg (optramParams coll0) sceneA).props "model_ref" = none ∧
    (optramSeriesImg (optramParams coll0) sceneA).props "notes" = none ∧
    (totramSeriesImg (totramParams collT) sceneT).props "model_ref" = none := by
  refine ⟨?_, ?_, ?_⟩ <;>
    simp [optramSeriesImg, totramSeriesImg, setProp, sceneA, sceneT, emptyProps]

/-- Claim C9, amended: the OPTRAM reference-composite output carries all
four provenance fields (model, reference citation, units, note); the
per-Scene series outputs of both families carry only model and units (plus
whatever properties the source Scene already had), and the TOTRAM mean
output carries model, units and a note but no reference citation. -/
theorem provenance_metadata_fields :
    ∀ (n : ℕ) (p : Params) (med sc : Scene n),
      (OPTRAM_median p med).props "model" = some "OPTRAM" ∧
      (OPTRAM_median p med).props "model_ref" = some "Sadeghi et al. (adapted)." ∧
      (OPTRAM_median p med).props "units" = some "%" ∧
      (OPTRAM_median p med).props "notes"
        = some "Relative surface soil moisture estimated by OPTRAM from Sentinel-2 STR & NDVI" ∧
      (optramSeriesImg p sc).props "model" = some "OPTRAM" ∧
      (optramSeriesImg p sc).props "units" = some "%" ∧
      (sc.props "model_ref" = none → (optramSeriesImg p sc).props "model_ref" = none) ∧
      (totramSeriesImg p sc).props "model" = some "TOTRAM" ∧
      (totramSeriesImg p sc).props "units" = some "relative" ∧
      (sc.props "notes" = none → (totramSeriesImg p sc).props "notes" = none) ∧
      sm_mean_props "model" = some "TOTRAM" ∧
      sm_mean_props "units" = some "relative" ∧
      sm_mean_props "notes" = some "Thermal-optical relative soil moisture (TOTRAM)" ∧
      sm_mean_props "model_ref" = none := by
  intro n p med sc
  refine ⟨by simp [OPTRAM_median, setProp], by simp [OPTRAM_median, setProp],
    by simp [OPTRAM_median, setProp], by simp [OPTRAM_median, setProp],
    by simp [optramSeriesImg, setProp], by simp [optramSeriesImg, setProp],
    fun h => by simp [optramSeriesImg, setProp, h],
    by simp [totramSeriesImg, setProp], by simp [totramSeriesImg, setProp],
    fun h => by simp [totramSeriesImg, setProp, h],
    by simp [sm_mean_props, setProp], by simp [sm_mean_props, setProp],
    by simp [sm_mean_props, setProp], by simp [sm_mean_props, setProp, emptyProps]⟩

/-- Witness for the amended C9 at the concrete Scene sceneA, whose property
map is empty. -/
theorem provenance_metadata_fields_witness :
    (OPTRAM_median (optramParams coll0) sceneA).props "model" = some "OPTRAM" ∧
    (optramSeriesImg (optramParams coll0) sceneA).props "model_ref" = none :=
  ⟨(provenance_metadata_fields 3 (optramParams coll0) sceneA sceneA).1,
   (provenance_metadata_fields 3 (optramParams coll0) sceneA sceneA).2.2.2.2.2.2.1
     (by simp [sceneA, emptyProps])⟩

/-- Claim C10: each per-Scene output of the OPTRAM series is a new
single-band image named soil_moisture; apart from the two keys model and
units that the script sets afterwards, every property of the source Scene
is copied to the output (copyProperties over the full property-name list),
so in particular the acquisition timestamp system:time_start is preserved.
The embedding is purely functional: the evaluator only reads the input
Scene and builds a fresh SMImage, so the input Scene is unchanged. -/
theorem series_output_band_and_properties :
    ∀ (n : ℕ) (p : Params) (sc : Scene n),
      (optramSeriesImg p sc).band = "soil_moisture" ∧
      (optramSeriesImg p sc).props "system:time_start"
        = sc.props "system:time_start" ∧
      ∀ k : String, k ≠ "model" → k ≠ "units" →
        (optramSeriesImg p sc).props k = sc.props k := by
  intro n p sc
  refine ⟨rfl, by simp [optramSeriesImg, setProp], ?_⟩
  intro k h1 h2
  simp [optramSeriesImg, setProp, h1, h2]

/-- Witness for C10 on the concrete Scene sceneTime carrying a timestamp
property, at the key system:time_start. -/
theorem series_output_band_and_properties_witness :
    (optramSeriesImg (optramParams [sceneTime]) sceneTime).props "system:time_start"
      = sceneTime.props "system:time_start" :=
  (series_output_band_and_properties 1 (optramParams [sceneTime]) sceneTime).2.2
    "system:time_start" (by decide) (by decide)
